import Mathlib

/-!
Verification development for the AI interview system (`src/api.py`,
`src/utils/*.py`).

Shallow embedding conventions:
- Python dict-based session records become the `Session` structure.
- Machine floats used for scores are modelled as `ℚ` (the scores flow
  through `float(...)` unchanged; no float rounding is relevant to the
  claims checked here).
- Fallible calls (LLM feedback / joint feedback+next-question, speech
  synthesis) are modelled as `Except String α` oracle arguments: `.ok`
  is a successful return, `.error` is a raised exception (including
  `asyncio.TimeoutError` from the 30-second-bounded joint call, which the
  callers catch with the same generic handler).
- Byte strings become `List Nat`; raised `struct.error` /
  `ZeroDivisionError` become `Option.none`.
- Timestamps (`datetime.now()`) are dropped: no claim mentions them and
  they do not influence any branch.
-/

namespace AIInterview

/-- Model of Python `str.startswith(pre)`: a character-prefix test on the
underlying character sequences. -/
def pyStartsWith (s pre : String) : Bool := pre.data.isPrefixOf s.data

/-- One entry of a session's `messages` list (`role` is `"user"` or
`"assistant"`, `content` the text; the timestamp field is dropped). -/
structure Message where
  role : String
  content : String
  deriving DecidableEq, Repr

/-- One entry of a session's `conversations` list: keys `"Question"`,
`"Candidate Answer"`, `"Evaluation"` (a float, modelled as ℚ) and
`"Feedback"`. -/
structure ConversationEntry where
  question : String
  answer : String
  evaluation : ℚ
  feedback : String
  deriving DecidableEq, Repr

/-- Result of a per-answer feedback LLM call, after validation in
`get_feedback_of_candidate_response`: a `"score"` (numeric) and a
`"feedback"` text. -/
structure Feedback where
  score : ℚ
  feedback : String
  deriving DecidableEq, Repr

/-- An interview session record as stored in `interview_sessions`
(`src/api.py`, `upload_resume`). -/
structure Session where
  name : String
  jobDescription : String
  resumeHighlights : String
  maxQuestions : Nat
  aiVoice : String
  qaIndex : Nat
  conversations : List ConversationEntry
  messages : List Message
  interviewStarted : Bool
  interviewCompleted : Bool
  deriving DecidableEq, Repr

/-- Fallback opening question used when no assistant message exists
(`src/api.py` line 251 and line 744). -/
def fallbackQuestion : String := "Tell me about yourself and your experience."

/-- Current question = content of the most recent `"assistant"` message,
or the fixed fallback (`src/api.py` lines 244-251). -/
def currentQuestion (msgs : List Message) : String :=
  match msgs.reverse.find? (fun m => m.role == "assistant") with
  | some m => m.content
  | none => fallbackQuestion

/-- Modelled from the spec: `utils/evaluation.py` (imported as
`get_overall_evaluation_score` in `src/utils/__init__.py`) is not among
the source files. The spec defines the aggregate as the "arithmetic mean
of all per-turn scores" (§4.4 and glossary); the callers in `src/api.py`
apply the 2-decimal rounding themselves via `round(overall_score, 2)`. -/
def get_overall_evaluation_score (convs : List ConversationEntry) : ℚ :=
  if convs.isEmpty then 0
  else (convs.map (fun c => c.evaluation)).sum / (convs.length : ℚ)

/-- Model of Python `round(x, 2)` on the values reached in this
development. (Python uses round-half-to-even on binary floats; this
model rounds half away from zero. The two agree at every value whose
hundredths digit is not produced by an exact .005 tie, and all values at
which claims evaluate `round` are tie-free.) -/
def round2 (q : ℚ) : ℚ := ((round (q * 100) : ℤ) : ℚ) / 100

/-- Helper: a `messages` entry for the candidate's transcript. -/
def userMessage (t : String) : Message := ⟨"user", t⟩

/-- Helper: a `messages` entry for an assistant text. -/
def assistantMessage (t : String) : Message := ⟨"assistant", t⟩

/-- Outcome of the REST `process_answer` endpoint, paired below with the
post-state of the session. -/
inductive RestResult where
  | rejectedCompleted : RestResult
  | errorResp (msg : String) : RestResult
  | completedResp (fb : Feedback) (thanks : String) (overall : ℚ) : RestResult
  | nextResp (fb : Feedback) (nextQuestion : String) (idx : Nat) : RestResult
  deriving DecidableEq, Repr

/-- Embedding of `process_answer` (`src/api.py` lines 215-378).
`feedbackCall` is the result of `get_feedback_of_candidate_response`
(used on the final question), `analyzeCall` the result of
`analyze_candidate_response_and_generate_new_question` (used otherwise);
an `Except.error` models a raised exception, including the
`asyncio.TimeoutError` of the joint call's 30-second default timeout
(`utils/analyze_candidate.py` lines 131-174) — both are caught by the
endpoint's generic handler and become an HTTP 500 (`errorResp`).
`rejectedCompleted` is the HTTP 400 "Interview already completed" branch,
taken before any mutation. The overall-feedback call is best-effort in
the source (a failure substitutes a fallback dict and changes no session
state), so it does not appear as an oracle. -/
def process_answer (s : Session) (transcript : String)
    (feedbackCall : Except String Feedback)
    (analyzeCall : Except String (String × Feedback))
    (thanksMessage : String) : RestResult × Session :=
  if s.interviewCompleted then (RestResult.rejectedCompleted, s)
  else
    let s1 := { s with messages := s.messages ++ [userMessage transcript] }
    let q := currentQuestion s1.messages
    if s.maxQuestions ≤ s.qaIndex then
      match feedbackCall with
      | Except.error e => (RestResult.errorResp e, s1)
      | Except.ok fb =>
        let s2 := { s1 with
                    conversations :=
                      s1.conversations ++ [ConversationEntry.mk q transcript fb.score fb.feedback],
                    interviewCompleted := true,
                    qaIndex := s1.qaIndex + 1,
                    messages := s1.messages ++ [assistantMessage thanksMessage] }
        let overall := get_overall_evaluation_score s2.conversations
        (RestResult.completedResp fb thanksMessage (round2 overall), s2)
    else
      match analyzeCall with
      | Except.error e => (RestResult.errorResp e, s1)
      | Except.ok (nq, fb) =>
        let s2 := { s1 with
                    conversations :=
                      s1.conversations ++ [ConversationEntry.mk q transcript fb.score fb.feedback],
                    messages := s1.messages ++ [assistantMessage nq],
                    qaIndex := s1.qaIndex + 1 }
        (RestResult.nextResp fb nq s2.qaIndex, s2)

/-- Interpretation of two bytes as a little-endian signed 16-bit sample,
as `struct.unpack('<h', ...)` does (`src/api.py` line 624). -/
def sgn16 (lo hi : Nat) : Int :=
  let v := lo + 256 * hi
  if v < 32768 then (v : Int) else (v : Int) - 65536

/-- The sample extraction loop of `calculate_audio_level` (`src/api.py`
lines 622-627): consecutive non-overlapping 2-byte windows, a trailing
odd byte ignored. -/
def pcm16Samples : List Nat → List Int
  | lo :: hi :: rest => sgn16 lo hi :: pcm16Samples rest
  | _ => []

/-- Square of the value computed by `calculate_audio_level` (`src/api.py`
lines 617-635): the mean of the squares of the samples normalized by
32768 (0 for an empty sample list). The source then takes `** 0.5`;
`calculate_audio_level` below applies the square root. -/
def audioLevelSq (pcm : List Nat) : ℚ :=
  let samples := pcm16Samples pcm
  if samples.isEmpty then 0
  else (samples.map (fun s => ((s : ℚ) / 32768) ^ 2)).sum / (samples.length : ℚ)

/-- Embedding of `calculate_audio_level` (`src/api.py` lines 617-635):
the root mean square of the normalized samples. -/
noncomputable def calculate_audio_level (pcm : List Nat) : ℝ :=
  Real.sqrt (audioLevelSq pcm)

/-- Little-endian bytes of a 32-bit field value (defined for `0 ≤ v`). -/
def u32leBytes (v : Int) : List Nat :=
  [(v % 256).toNat, (v / 256 % 256).toNat, (v / 65536 % 256).toNat,
   (v / 16777216 % 256).toNat]

/-- Little-endian bytes of a 16-bit field value (defined for `0 ≤ v`). -/
def u16leBytes (v : Int) : List Nat :=
  [(v % 256).toNat, (v / 256 % 256).toNat]

/-- ASCII bytes of the `b'RIFF'` marker. -/
def riffMark : List Nat := [82, 73, 70, 70]

/-- ASCII bytes of the `b'WAVE'` marker. -/
def waveMark : List Nat := [87, 65, 86, 69]

/-- ASCII bytes of the `b'fmt '` marker. -/
def fmtMark : List Nat := [102, 109, 116, 32]

/-- ASCII bytes of the `b'data'` marker. -/
def dataMark : List Nat := [100, 97, 116, 97]

/-- Embedding of `create_wav_file` (`src/api.py` lines 638-663).
`struct.pack('<4sI4s4sIHHIIHH4sI', ...)` raises `struct.error` when any
`I` field is outside `[0, 2^32)` or any `H` field is outside `[0, 2^16)`;
a raised exception is modelled as `none` (`sample_width = 0` would raise
`ZeroDivisionError` and is also `none`). Python's `//` is `Int.fdiv`.
The constant fields `Subchunk1Size = 16` (`I`) and `AudioFormat = 1`
(`H`) are always in range. -/
def create_wav_file (pcm_data : List Nat) (sample_rate : Int := 16000)
    (channels : Int := 1) (sample_width : Int := 2) : Option (List Nat) :=
  if sample_width = 0 then none
  else
    let num_samples : Int := Int.fdiv (pcm_data.length : Int) sample_width
    let byte_rate := sample_rate * channels * sample_width
    let block_align := channels * sample_width
    let data_size := num_samples * block_align
    let file_size := 36 + data_size
    if 0 ≤ file_size ∧ file_size < 4294967296 ∧
       0 ≤ channels ∧ channels < 65536 ∧
       0 ≤ sample_rate ∧ sample_rate < 4294967296 ∧
       0 ≤ byte_rate ∧ byte_rate < 4294967296 ∧
       0 ≤ block_align ∧ block_align < 65536 ∧
       0 ≤ sample_width * 8 ∧ sample_width * 8 < 65536 ∧
       0 ≤ data_size ∧ data_size < 4294967296 then
      some (riffMark ++ u32leBytes file_size ++ waveMark ++ fmtMark ++
            u32leBytes 16 ++ u16leBytes 1 ++ u16leBytes channels ++
            u32leBytes sample_rate ++ u32leBytes byte_rate ++
            u16leBytes block_align ++ u16leBytes (sample_width * 8) ++
            dataMark ++ u32leBytes data_size ++ pcm_data)
    else none

/-- Value of the 32-bit little-endian field at byte offset `i` of `w`
(reading absent positions as 0). -/
def readU32 (w : List Nat) (i : Nat) : Nat :=
  w.getD i 0 + 256 * w.getD (i + 1) 0 + 65536 * w.getD (i + 2) 0 +
    16777216 * w.getD (i + 3) 0

/-- Value of the 16-bit little-endian field at byte offset `i` of `w`. -/
def readU16 (w : List Nat) (i : Nat) : Nat :=
  w.getD i 0 + 256 * w.getD (i + 1) 0

/-- Client-facing events emitted on the realtime websocket
(`src/api.py`: `websocket_openai_realtime`, `process_audio_chunks`,
`send_text_as_audio`). A `sendBytes` carries one audio chunk. -/
inductive Event where
  | transcriptEvt (content : String) : Event
  | nextQuestionEvt (content : String) (idx : Nat) : Event
  | interviewCompletedEvt (thanks : String) (overall : ℚ) : Event
  | audioStart (format : String) : Event
  | sendBytes (chunk : List Nat) : Event
  | audioEnd : Event
  | errorEvt (msg : String) : Event
  | pong : Event
  deriving DecidableEq, Repr

/-- The chunked file-read loop of `send_text_as_audio` (`src/api.py`
lines 916-926): successive reads of at most 8192 bytes. -/
def chunks8192 (l : List Nat) : List (List Nat) :=
  if l = [] then [] else l.take 8192 :: chunks8192 (l.drop 8192)
  termination_by l.length
  decreasing_by
    simp only [List.length_drop]
    have : 0 < l.length := List.length_pos.mpr (by assumption)
    omega

/-- Embedding of `send_text_as_audio` (`src/api.py` lines 898-957) as the
sequence of events it emits. `synth` is the result of
`generate_speech_elevenlabs` (the produced MP3 bytes, or a raised
exception as `.error`). On success: an `audio_start` marker declaring
`"mp3"`, the audio bytes in order in chunks of at most 8192 bytes, then
an `audio_end` marker. On failure: a single structured error event, no
audio frames, no end marker. The function is total — the source's
`except` block swallows the failure rather than re-raising, so no
exception escapes into the session loop. -/
def send_text_as_audio (synth : Except String (List Nat)) : List Event :=
  match synth with
  | Except.error e => [Event.errorEvt ("Error generating audio: " ++ e)]
  | Except.ok audio =>
      Event.audioStart "mp3" :: ((chunks8192 audio).map Event.sendBytes ++
        [Event.audioEnd])

/-- External circumstances under which `transcribe_with_openai`
(`src/utils/transcript_audio.py` lines 23-57) runs: the API key may be
absent, the file may be missing or empty, the Whisper call may raise, or
it may return text. -/
inductive TranscribeEnv where
  | noApiKey : TranscribeEnv
  | fileNotFound : TranscribeEnv
  | emptyFile : TranscribeEnv
  | apiError (msg : String) : TranscribeEnv
  | ok (text : String) : TranscribeEnv
  deriving DecidableEq, Repr

/-- Embedding of `transcribe_with_openai` (`src/utils/transcript_audio.py`
lines 23-57): every failure is returned in-band as a sentinel string,
never raised. `transcribe_with_deepgram` (lines 5-19) unconditionally
delegates to this function. -/
def transcribe_with_openai (audio_path : String) (env : TranscribeEnv) : String :=
  match env with
  | TranscribeEnv.noApiKey => "Transcription failed: No API key"
  | TranscribeEnv.fileNotFound => "Audio file not found: " ++ audio_path
  | TranscribeEnv.emptyFile => "No audio recorded"
  | TranscribeEnv.apiError e => "Transcription failed: " ++ e
  | TranscribeEnv.ok t =>
      let ft := t.trim
      if ft = "" then "No speech detected in audio" else ft

/-- The transcript filter of `process_audio_chunks` (`src/api.py` lines
701-709): an empty transcript, a transcript beginning with
`"Transcription failed"`, and the exact string
`"No speech detected in audio"` are skipped (the function returns with
no event and no session mutation). -/
def realtimeSkips (transcript : String) : Bool :=
  transcript = "" || pyStartsWith transcript "Transcription failed" ||
    transcript = "No speech detected in audio"

/-- Turn processing of an accepted transcript on the realtime pipeline
(`src/api.py` lines 713-877). Mirrors the source: the transcript event
is sent first, the user message is appended, and then — with NO check of
`interview_completed` — the final-question or next-question branch runs.
Oracles as in `process_answer`; `synth` feeds `send_text_as_audio`. An
LLM failure is caught by the surrounding `except` (lines 883-895), which
emits an error event and leaves everything but the user-message append
untouched. -/
def processTranscriptRealtime (s : Session) (transcript : String)
    (feedbackCall : Except String Feedback)
    (analyzeCall : Except String (String × Feedback))
    (thanksMessage : String)
    (synth : Except String (List Nat)) : List Event × Session :=
  let evts := [Event.transcriptEvt transcript]
  let s1 := { s with messages := s.messages ++ [userMessage transcript] }
  let q := currentQuestion s1.messages
  if s.maxQuestions ≤ s.qaIndex then
    match feedbackCall with
    | Except.error e =>
        (evts ++ [Event.errorEvt ("Error processing audio: " ++ e)], s1)
    | Except.ok fb =>
        let s2 := { s1 with
                    conversations :=
                      s1.conversations ++ [ConversationEntry.mk q transcript fb.score fb.feedback],
                    interviewCompleted := true,
                    qaIndex := s1.qaIndex + 1 }
        let overall := get_overall_evaluation_score s2.conversations
        let s3 := { s2 with
                    messages := s2.messages ++ [assistantMessage thanksMessage] }
        (evts ++ send_text_as_audio synth ++
          [Event.interviewCompletedEvt thanksMessage (round2 overall)], s3)
  else
    match analyzeCall with
    | Except.error e =>
        (evts ++ [Event.errorEvt ("Error processing audio: " ++ e)], s1)
    | Except.ok (nq, fb) =>
        let s2 := { s1 with
                    conversations :=
                      s1.conversations ++ [ConversationEntry.mk q transcript fb.score fb.feedback],
                    messages := s1.messages ++ [assistantMessage nq],
                    qaIndex := s1.qaIndex + 1 }
        (evts ++ send_text_as_audio synth ++
          [Event.nextQuestionEvt nq s2.qaIndex], s2)

/-- The post-transcription stage of `process_audio_chunks` (`src/api.py`
lines 699-877): the transcript-sentinel filter followed, when the
transcript is accepted, by realtime turn processing. A skipped
transcript produces no event and no session mutation. -/
def transcriptStage (s : Session) (transcript : String)
    (feedbackCall : Except String Feedback)
    (analyzeCall : Except String (String × Feedback))
    (thanksMessage : String)
    (synth : Except String (List Nat)) : List Event × Session :=
  if realtimeSkips transcript then ([], s)
  else processTranscriptRealtime s transcript feedbackCall analyzeCall
    thanksMessage synth

/-- Embedding of `process_audio_chunks` (`src/api.py` lines 666-895).
The accumulated chunks are joined; a combined buffer shorter than 16000
bytes (0.5 s at 16 kHz mono 16-bit) is discarded; a buffer whose RMS
level is below 0.01 is discarded as background noise (the source
compares `calculate_audio_level(...) < 0.01`; since both sides are
nonnegative this is equivalent to comparing the squares, which is the
decidable form used here — see `audio_level_lt_threshold_iff`); the
buffer is then encoded by `create_wav_file` (a `struct` failure would be
caught by the surrounding `except` and emit an error event) and handed
to transcription. `transcript` is the string returned by
`transcribe_with_deepgram` on the temporary WAV file. -/
def process_audio_chunks (s : Session) (audio_chunks : List (List Nat))
    (transcript : String)
    (feedbackCall : Except String Feedback)
    (analyzeCall : Except String (String × Feedback))
    (thanksMessage : String)
    (synth : Except String (List Nat)) : List Event × Session :=
  let combined := audio_chunks.flatten
  if combined.length < 16000 then ([], s)
  else if audioLevelSq combined < 1 / 10000 then ([], s)
  else
    match create_wav_file combined 16000 1 2 with
    | none => ([Event.errorEvt "Error processing audio: struct.error"], s)
    | some _ =>
        transcriptStage s transcript feedbackCall analyzeCall thanksMessage synth

/-- The `end_audio` control-message handler of the websocket loop
(`src/api.py` lines 546-556): a non-empty buffer is processed and then
cleared (`audio_chunks = []`); an empty buffer is left as is (it is
already empty) with a log line only. Returns (emitted events, session
after, buffer after). -/
def handleEndAudio (s : Session) (audio_chunks : List (List Nat))
    (transcript : String)
    (feedbackCall : Except String Feedback)
    (analyzeCall : Except String (String × Feedback))
    (thanksMessage : String)
    (synth : Except String (List Nat)) :
    List Event × Session × List (List Nat) :=
  if audio_chunks.isEmpty then ([], s, audio_chunks)
  else
    let r := process_audio_chunks s audio_chunks transcript feedbackCall
      analyzeCall thanksMessage synth
    (r.1, r.2, [])

/-! Helper lemmas shared by several claim theorems. -/

/-- Rejoining the chunks produced by the 8192-byte read loop restores the
original byte string. -/
theorem chunks8192_flatten (l : List Nat) : (chunks8192 l).flatten = l := by
  generalize hn : l.length = n
  induction n using Nat.strong_induction_on generalizing l with
  | _ n ih =>
    rw [chunks8192]
    split
    next he => simp [he]
    next he =>
      have hp : 0 < l.length := List.length_pos.mpr he
      have hrec : (chunks8192 (l.drop 8192)).flatten = l.drop 8192 :=
        ih (l.drop 8192).length (by simp only [List.length_drop]; omega) _ rfl
      simp only [List.flatten_cons, hrec, List.take_append_drop]

/-- Every chunk produced by the 8192-byte read loop has at most 8192
bytes. -/
theorem chunks8192_bounded (l : List Nat) :
    (chunks8192 l).all (fun c => c.length ≤ 8192) = true := by
  generalize hn : l.length = n
  induction n using Nat.strong_induction_on generalizing l with
  | _ n ih =>
    rw [chunks8192]
    split
    next he => simp
    next he =>
      have hp : 0 < l.length := List.length_pos.mpr he
      have hrec := ih (l.drop 8192).length (by simp only [List.length_drop]; omega)
        (l.drop 8192) rfl
      simp only [List.all_cons, hrec, Bool.and_true, decide_eq_true_eq]
      simp [List.length_take]

/-- The silence test `calculate_audio_level(...) < 0.01` of the source is
equivalent to the decidable squared comparison used in
`process_audio_chunks` above. -/
theorem audio_level_lt_threshold_iff (pcm : List Nat) :
    (calculate_audio_level pcm < (1 / 100 : ℝ)) ↔
      audioLevelSq pcm < (1 / 10000 : ℚ) := by
  rw [calculate_audio_level, Real.sqrt_lt' (by norm_num : (0 : ℝ) < 1 / 100)]
  have h : ((1 : ℝ) / 100) ^ 2 = ((1 / 10000 : ℚ) : ℝ) := by norm_num
  rw [h]
  exact_mod_cast Iff.rfl

/-- Reading a 32-bit field from a concatenation whose prefix lies wholly
before the field. -/
theorem readU32_append_right (p r : List Nat) (j : Nat) :
    readU32 (p ++ r) (p.length + j) = readU32 r j := by
  unfold readU32
  rw [List.getD_append_right _ _ _ _ (by omega),
      List.getD_append_right _ _ _ _ (by omega),
      List.getD_append_right _ _ _ _ (by omega),
      List.getD_append_right _ _ _ _ (by omega)]
  have e0 : p.length + j - p.length = j := by omega
  have e1 : p.length + j + 1 - p.length = j + 1 := by omega
  have e2 : p.length + j + 2 - p.length = j + 2 := by omega
  have e3 : p.length + j + 3 - p.length = j + 3 := by omega
  rw [e0, e1, e2, e3]

/-- Decoding the little-endian 32-bit encoding of an in-range value
recovers the value, also when further bytes follow. -/
theorem readU32_u32leBytes (v : Int) (r : List Nat) (h0 : 0 ≤ v)
    (h1 : v < 4294967296) : readU32 (u32leBytes v ++ r) 0 = v.toNat := by
  simp only [u32leBytes, readU32, List.cons_append, List.nil_append,
    List.getD_cons_zero, List.getD_cons_succ]
  omega

/-- The first 40 bytes of the header produced for a mono 16-bit 16 kHz
payload of `n` bytes (everything before the payload-size field). -/
def wavPrefix (n : Nat) : List Nat :=
  riffMark ++ u32leBytes (36 + (n : Int)) ++ waveMark ++ fmtMark ++
  u32leBytes 16 ++ u16leBytes 1 ++ u16leBytes 1 ++ u32leBytes 16000 ++
  u32leBytes 32000 ++ u16leBytes 2 ++ u16leBytes 16 ++ dataMark

/-- The 44-byte header produced for a mono 16-bit 16 kHz payload of `n`
bytes (`n` even): prefix followed by the payload-size field. -/
def wavHeader (n : Nat) : List Nat := wavPrefix n ++ u32leBytes (n : Int)

/-- Byte length of the header prefix. -/
theorem wavPrefix_length (n : Nat) : (wavPrefix n).length = 40 := by
  simp [wavPrefix, riffMark, waveMark, fmtMark, dataMark, u32leBytes, u16leBytes]

/-- Byte length of the full header. -/
theorem wavHeader_length (n : Nat) : (wavHeader n).length = 44 := by
  simp [wavHeader, wavPrefix_length, u32leBytes]

/-- With the realtime pipeline's parameters (16 kHz, mono, 16-bit) and an
even payload not overflowing the 32-bit size fields, the encoder succeeds
and returns the 44-byte header followed by the unmodified payload. -/
theorem create_wav_file_mono16 (pcm : List Nat) (h2 : pcm.length % 2 = 0)
    (hb : (pcm.length : Int) + 36 < 4294967296) :
    create_wav_file pcm 16000 1 2 = some (wavHeader pcm.length ++ pcm) := by
  have hds : Int.fdiv (pcm.length : Int) 2 * (1 * 2) = (pcm.length : Int) := by
    rw [Int.fdiv_eq_ediv _ (by omega)]
    omega
  simp only [create_wav_file, hds]
  rw [if_neg (by norm_num : ¬(2 : ℤ) = 0)]
  rw [if_pos (by refine ⟨?_, ?_, ?_, ?_, ?_, ?_, ?_, ?_, ?_, ?_, ?_, ?_, ?_, ?_⟩ <;> omega)]
  simp only [wavHeader, wavPrefix, List.append_assoc]
  norm_num

/-- Any string formed by appending to `"Transcription failed"` passes the
prefix test. -/
theorem pyStartsWith_failed_append (t : String) :
    pyStartsWith ("Transcription failed" ++ t) "Transcription failed" = true := by
  simp [pyStartsWith, String.data_append, List.isPrefixOf_iff_prefix]

/-- Both adapter fault families beginning with `"Transcription failed"`
pass the prefix test. -/
theorem pyStartsWith_failed_colon (t : String) :
    pyStartsWith ("Transcription failed: " ++ t) "Transcription failed" = true := by
  have h : "Transcription failed: ".data =
      "Transcription failed".data ++ [':', ' '] := rfl
  simp [pyStartsWith, String.data_append, h, List.isPrefixOf_iff_prefix,
    List.append_assoc]

/-- A `"Audio file not found: ..."` string fails every disjunct of the
realtime sentinel filter. -/
theorem realtimeSkips_file_not_found (p : String) :
    realtimeSkips ("Audio file not found: " ++ p) = false := by
  have hA : "Audio file not found: ".data =
      'A' :: "udio file not found: ".data := rfl
  have hT : "Transcription failed".data = 'T' :: "ranscription failed".data := rfl
  have hN : "No speech detected in audio".data =
      'N' :: "o speech detected in audio".data := rfl
  simp [realtimeSkips, pyStartsWith, String.ext_iff, String.data_append,
    hA, hT, hN, List.isPrefixOf]

/-- A transcript beginning with `"Transcription failed"` is always
skipped by the realtime sentinel filter. -/
theorem realtimeSkips_failed_colon (t : String) :
    realtimeSkips ("Transcription failed: " ++ t) = true := by
  simp [realtimeSkips, pyStartsWith_failed_colon]

/-- A skipped transcript produces no event and leaves the session
untouched in the post-transcription stage. -/
theorem transcriptStage_skip (s : Session) (t : String)
    (fbc : Except String Feedback) (anc : Except String (String × Feedback))
    (thanks : String) (synth : Except String (List Nat))
    (h : realtimeSkips t = true) :
    transcriptStage s t fbc anc thanks synth = ([], s) := by
  simp [transcriptStage, h]

/-- Sample in-progress session fixture: greeting sent, first question
outstanding, no completed turn yet. -/
def freshSession : Session :=
  { name := "Ada", jobDescription := "Engineer", resumeHighlights := "Python",
    maxQuestions := 3, aiVoice := "alloy", qaIndex := 1, conversations := [],
    messages := [assistantMessage "Hello Ada"], interviewStarted := true,
    interviewCompleted := false }

/-- Sample session fixture on its final question: two scored turns (6 and
8) recorded, `qa_index = max_questions = 3`. -/
def finalSession : Session :=
  { freshSession with
    qaIndex := 3,
    conversations := [ConversationEntry.mk "q1" "a1" 6 "f1",
                      ConversationEntry.mk "q2" "a2" 8 "f2"],
    messages := [assistantMessage "Hello", userMessage "a1",
                 assistantMessage "q2", userMessage "a2",
                 assistantMessage "q3"] }

/-- Sample completed session fixture: `max_questions = 1`, one scored
turn, `completed = true`, `qa_index = max_questions + 1`. -/
def doneSession : Session :=
  { freshSession with
    maxQuestions := 1, qaIndex := 2,
    conversations := [ConversationEntry.mk "q1" "a1" 7 "f1"],
    messages := [assistantMessage "Hello", userMessage "a1",
                 assistantMessage "Thanks"],
    interviewCompleted := true }

/-! Claim theorems. -/

/-- C1: the claim states that a turn submitted on a session with
`completed=true` is rejected on BOTH the REST path and the realtime
pipeline without mutating the conversation record, the message log or
the turn index, so that the turn index never exceeds
`max_questions + 1`. The REST `process_answer` does reject (first
conjunct). The realtime pipeline does not: `process_audio_chunks` never
consults `interview_completed`, so a further accepted transcript on the
completed fixture (`max_questions = 1`, `qa_index = 2`) appends the user
message, records a second conversation entry, and advances the turn
index to `max_questions + 2 = 3` — the code violates the claimed
invariant on this input. -/
theorem C1_completed_session_turn :
    process_answer doneSession "one more answer" (Except.ok ⟨6, "fb"⟩)
        (Except.ok ("q2", ⟨6, "fb"⟩)) "thanks" =
      (RestResult.rejectedCompleted, doneSession) ∧
    doneSession.interviewCompleted = true ∧
    doneSession.maxQuestions = 1 ∧ doneSession.qaIndex = 2 ∧
    realtimeSkips "one more answer" = false ∧
    (processTranscriptRealtime doneSession "one more answer" (Except.ok ⟨6, "fb"⟩)
        (Except.ok ("q2", ⟨6, "fb"⟩)) "thanks" (Except.ok [1, 2])).2.qaIndex = 3 ∧
    (processTranscriptRealtime doneSession "one more answer" (Except.ok ⟨6, "fb"⟩)
        (Except.ok ("q2", ⟨6, "fb"⟩)) "thanks" (Except.ok [1, 2])).2.conversations.length
      = 2 ∧
    (processTranscriptRealtime doneSession "one more answer" (Except.ok ⟨6, "fb"⟩)
        (Except.ok ("q2", ⟨6, "fb"⟩)) "thanks" (Except.ok [1, 2])).2.messages.length
      = doneSession.messages.length + 2 := by
  refine ⟨by decide, by decide, by decide, by decide, by decide, ?_, ?_, ?_⟩ <;>
    simp [processTranscriptRealtime, doneSession, freshSession]

/-- C2 counterexample: the claim states that a lower-level transcription
fault (here: missing credentials) is surfaced to the client as an error
event rather than silently discarded. In fact the adapter returns the
fault in-band as `"Transcription failed: No API key"` and the realtime
pipeline's sentinel filter silently discards it — the post-transcription
stage emits NO event at all (in particular no error event) and leaves
the session untouched, exactly as it does for the heuristic no-speech
sentinel (third conjunct). -/
theorem C2_counterexample :
    transcribe_with_openai "/tmp/utterance.wav" TranscribeEnv.noApiKey =
      "Transcription failed: No API key" ∧
    transcriptStage freshSession
        (transcribe_with_openai "/tmp/utterance.wav" TranscribeEnv.noApiKey)
        (Except.ok ⟨6, "fb"⟩) (Except.ok ("q2", ⟨6, "fb"⟩)) "thanks"
        (Except.ok [1]) = ([], freshSession) ∧
    transcriptStage freshSession "No speech detected in audio"
        (Except.ok ⟨6, "fb"⟩) (Except.ok ("q2", ⟨6, "fb"⟩)) "thanks"
        (Except.ok [1]) = ([], freshSession) := by
  refine ⟨rfl, ?_, ?_⟩ <;> decide

/-- C2 (amended): every lower-level transcription fault (missing
credentials, service/network error) is returned in-band by the adapter
as a string beginning with `"Transcription failed"`, and the realtime
pipeline silently discards such transcripts exactly the way it discards
heuristic rejections: no event is emitted (in particular no error
event), the session is not mutated, and the connection is not torn
down. -/
theorem C2_amended (s : Session) (path e : String)
    (fbc : Except String Feedback) (anc : Except String (String × Feedback))
    (thanks : String) (synth : Except String (List Nat)) :
    pyStartsWith (transcribe_with_openai path TranscribeEnv.noApiKey)
      "Transcription failed" = true ∧
    pyStartsWith (transcribe_with_openai path (TranscribeEnv.apiError e))
      "Transcription failed" = true ∧
    transcriptStage s (transcribe_with_openai path TranscribeEnv.noApiKey)
      fbc anc thanks synth = ([], s) ∧
    transcriptStage s (transcribe_with_openai path (TranscribeEnv.apiError e))
      fbc anc thanks synth = ([], s) ∧
    transcriptStage s "No speech detected in audio" fbc anc thanks synth
      = ([], s) := by
  refine ⟨?_, pyStartsWith_failed_colon e, ?_, ?_, ?_⟩
  · show pyStartsWith "Transcription failed: No API key" "Transcription failed" = true
    decide
  · exact transcriptStage_skip _ _ _ _ _ _
      (by show realtimeSkips "Transcription failed: No API key" = true; decide)
  · exact transcriptStage_skip _ _ _ _ _ _ (realtimeSkips_failed_colon e)
  · exact transcriptStage_skip _ _ _ _ _ _ (by decide)

/-- C3: on a non-final turn of an in-progress session, a failed or
timed-out joint feedback+next-question call (a raised exception,
including `asyncio.TimeoutError` from the 30-second default timeout)
makes the whole turn fail with a reported error, leaving the turn index,
the conversation record and the completion flag unchanged; only the
candidate's raw user message-log append persists, so the session remains
in progress and the client may resubmit. -/
theorem C3_failed_joint_call (s : Session) (transcript e : String)
    (fbc : Except String Feedback) (thanks : String)
    (hc : s.interviewCompleted = false) (hq : s.qaIndex < s.maxQuestions) :
    process_answer s transcript fbc (Except.error e) thanks =
      (RestResult.errorResp e,
        { s with messages := s.messages ++ [userMessage transcript] }) ∧
    (process_answer s transcript fbc (Except.error e) thanks).2.qaIndex
      = s.qaIndex ∧
    (process_answer s transcript fbc (Except.error e) thanks).2.conversations
      = s.conversations ∧
    (process_answer s transcript fbc (Except.error e) thanks).2.interviewCompleted
      = false := by
  have h1 : ¬s.maxQuestions ≤ s.qaIndex := by omega
  refine ⟨?_, ?_, ?_, ?_⟩ <;> simp [process_answer, hc, h1]

/-- C3 witness: the theorem applied to the in-progress fixture with a
timed-out joint call. -/
theorem C3_witness :
    process_answer freshSession "my answer" (Except.ok ⟨5, "f"⟩)
        (Except.error "timeout") "thanks" =
      (RestResult.errorResp "timeout",
        { freshSession with
          messages := freshSession.messages ++ [userMessage "my answer"] }) ∧
    (process_answer freshSession "my answer" (Except.ok ⟨5, "f"⟩)
        (Except.error "timeout") "thanks").2.qaIndex = freshSession.qaIndex ∧
    (process_answer freshSession "my answer" (Except.ok ⟨5, "f"⟩)
        (Except.error "timeout") "thanks").2.conversations
      = freshSession.conversations ∧
    (process_answer freshSession "my answer" (Except.ok ⟨5, "f"⟩)
        (Except.error "timeout") "thanks").2.interviewCompleted = false :=
  C3_failed_joint_call freshSession "my answer" "timeout" (Except.ok ⟨5, "f"⟩)
    "thanks" rfl (by decide)

/-- C4: on a successful final turn the endpoint reports an overall score
equal to the arithmetic mean of all per-turn scores of the (extended)
conversation record rounded to two decimals; the aggregate of a
single-entry record is exactly that entry's score; and the aggregate of
scores 6, 8, 10 rounds to exactly 8. (`get_overall_evaluation_score` is
modelled from the spec, its source file being absent; the 2-decimal
rounding is applied by `process_answer` itself, as in the source.) -/
theorem C4_aggregate_score (s : Session) (transcript : String) (fb : Feedback)
    (anc : Except String (String × Feedback)) (thanks : String)
    (hc : s.interviewCompleted = false) (hl : s.maxQuestions ≤ s.qaIndex) :
    (process_answer s transcript (Except.ok fb) anc thanks).1 =
      RestResult.completedResp fb thanks
        (round2 (get_overall_evaluation_score (s.conversations ++
          [ConversationEntry.mk
            (currentQuestion (s.messages ++ [userMessage transcript]))
            transcript fb.score fb.feedback]))) ∧
    (∀ e : ConversationEntry, get_overall_evaluation_score [e] = e.evaluation) ∧
    round2 (get_overall_evaluation_score
      [ConversationEntry.mk "q1" "a1" 6 "f1", ConversationEntry.mk "q2" "a2" 8 "f2",
       ConversationEntry.mk "q3" "a3" 10 "f3"]) = 8 := by
  refine ⟨?_, ?_, ?_⟩
  · simp [process_answer, hc, hl]
  · intro e
    simp [get_overall_evaluation_score]
  · norm_num [get_overall_evaluation_score, round2, round_eq]

/-- C4 witness: the theorem applied to the final-question fixture whose
record holds scores 6 and 8, with an accepted final score 10; the
reported overall score evaluates to exactly 8. -/
theorem C4_witness :
    (process_answer finalSession "a3" (Except.ok ⟨10, "f3"⟩)
        (Except.error "na") "thanks").1 =
      RestResult.completedResp ⟨10, "f3"⟩ "thanks" 8 := by
  have h := C4_aggregate_score finalSession "a3" ⟨10, "f3"⟩
    (Except.error "na") "thanks" rfl (by decide)
  rw [h.1]
  norm_num [finalSession, freshSession, currentQuestion, userMessage,
    assistantMessage, get_overall_evaluation_score, round2, round_eq]

/-- C5 counterexample: the claim states that for EVERY PCM byte buffer
the header-declared payload length agrees exactly with the actual
payload appended after the header. For the 1-byte buffer `[7]` (defaults
16 kHz, mono, 16-bit) the encoder declares `(1 // 2) * 2 = 0` payload
bytes in the size field at offset 40 while actually appending 1 byte. -/
theorem C5_counterexample :
    (create_wav_file [7] 16000 1 2).map
        (fun w => (readU32 w 40, (w.drop 44).length)) = some (0, 1) ∧
    (0 : Nat) ≠ 1 := by
  refine ⟨by decide, by decide⟩

/-- C5 (amended): the header-declared payload length is
`(len // sampleWidth) * channels * sampleWidth`, which agrees exactly
with the actual payload length whenever the pipeline's parameters are
used (mono, 16-bit) and the payload length is even (and small enough for
the 32-bit size fields). In that case the encoder emits the fixed
44-byte little-endian header — total-size field `36 + payload` at offset
4, payload-size field at offset 40 — immediately followed by the
unmodified payload. -/
theorem C5_amended (pcm : List Nat) (h2 : pcm.length % 2 = 0)
    (hb : (pcm.length : Int) + 36 < 4294967296) :
    create_wav_file pcm 16000 1 2 = some (wavHeader pcm.length ++ pcm) ∧
    (wavHeader pcm.length).length = 44 ∧
    readU32 (wavHeader pcm.length ++ pcm) 40 = pcm.length ∧
    readU32 (wavHeader pcm.length ++ pcm) 4 = 36 + pcm.length ∧
    (wavHeader pcm.length ++ pcm).drop 44 = pcm := by
  refine ⟨create_wav_file_mono16 pcm h2 hb, wavHeader_length _, ?_, ?_, ?_⟩
  · rw [wavHeader, List.append_assoc,
      show (40 : Nat) = (wavPrefix pcm.length).length + 0 by rw [wavPrefix_length],
      readU32_append_right,
      readU32_u32leBytes _ _ (by omega) (by omega)]
    omega
  · simp only [wavHeader, wavPrefix, List.append_assoc]
    rw [show (4 : Nat) = riffMark.length + 0 from rfl, readU32_append_right,
      readU32_u32leBytes _ _ (by omega) (by omega)]
    omega
  · rw [show (44 : Nat) = (wavHeader pcm.length).length from
      (wavHeader_length _).symm]
    exact List.drop_left _ _

/-- C5 witness: the amended theorem applied to the 2-byte payload
`[1, 2]`. -/
theorem C5_witness :
    create_wav_file [1, 2] 16000 1 2 = some (wavHeader 2 ++ [1, 2]) ∧
    (wavHeader 2).length = 44 ∧
    readU32 (wavHeader 2 ++ [1, 2]) 40 = 2 ∧
    readU32 (wavHeader 2 ++ [1, 2]) 4 = 38 ∧
    (wavHeader 2 ++ [1, 2]).drop 44 = [1, 2] :=
  C5_amended [1, 2] (by decide) (by decide)

/-- C6 counterexample: the claim states that every input with
`sampleRate ≤ 0` or `channels ≤ 0` is rejected. The encoder performs no
such validation: with sample rate 0 and channel count 0 it succeeds
(every packed field, including the zero ones, is within its fixed-width
range). -/
theorem C6_counterexample : (create_wav_file [0, 0, 0, 0] 0 0 2).isSome = true := by
  decide

/-- C6 (amended): with the fixed 16-bit sample width, the encoder
succeeds exactly when every packed header field fits its fixed-width
encoding: negative sample rates or channel counts are rejected (every
field must be nonnegative), zero sample rate or zero channel count is
accepted, and even positive inputs are rejected when the sample rate,
derived byte rate, block align, or size fields overflow their 32- or
16-bit ranges. -/
theorem C6_amended (pcm : List Nat) (rate ch : Int) :
    (create_wav_file pcm rate ch 2).isSome = true ↔
      (0 ≤ 36 + Int.fdiv (pcm.length : Int) 2 * (ch * 2) ∧
       36 + Int.fdiv (pcm.length : Int) 2 * (ch * 2) < 4294967296 ∧
       0 ≤ ch ∧ ch < 65536 ∧
       0 ≤ rate ∧ rate < 4294967296 ∧
       0 ≤ rate * ch * 2 ∧ rate * ch * 2 < 4294967296 ∧
       0 ≤ ch * 2 ∧ ch * 2 < 65536 ∧
       0 ≤ Int.fdiv (pcm.length : Int) 2 * (ch * 2) ∧
       Int.fdiv (pcm.length : Int) 2 * (ch * 2) < 4294967296) := by
  rw [create_wav_file]
  rw [if_neg (by norm_num : ¬(2 : ℤ) = 0)]
  constructor
  · intro h
    by_contra hg
    rw [if_neg ?_] at h
    · simp at h
    · intro hc
      exact hg (by tauto)
  · intro hg
    rw [if_pos (by tauto)]
    rfl

/-- C7: whenever the accumulated audio buffer joins to fewer than 16000
bytes (0.5 s at 16 kHz mono 16-bit), the end-of-speech finalize step
produces no container, reaches no transcription and performs no session
mutation (it emits no event and returns the session unchanged), and the
`end_audio` handler leaves the chunk buffer completely cleared. -/
theorem C7_short_buffer (s : Session) (chunks : List (List Nat))
    (transcript : String) (fbc : Except String Feedback)
    (anc : Except String (String × Feedback)) (thanks : String)
    (synth : Except String (List Nat))
    (h : chunks.flatten.length < 16000) :
    process_audio_chunks s chunks transcript fbc anc thanks synth = ([], s) ∧
    handleEndAudio s chunks transcript fbc anc thanks synth = ([], s, []) := by
  have h1 : process_audio_chunks s chunks transcript fbc anc thanks synth
      = ([], s) := by
    simp only [process_audio_chunks]
    rw [if_pos h]
  refine ⟨h1, ?_⟩
  cases chunks with
  | nil => simp [handleEndAudio]
  | cons c t => simp [handleEndAudio, h1]

/-- C7 witness: the theorem applied to a 2-byte buffer. -/
theorem C7_witness :
    process_audio_chunks freshSession [[0, 0]] "hi" (Except.ok ⟨5, "f"⟩)
        (Except.ok ("q2", ⟨5, "f"⟩)) "thanks" (Except.ok []) =
      ([], freshSession) ∧
    handleEndAudio freshSession [[0, 0]] "hi" (Except.ok ⟨5, "f"⟩)
        (Except.ok ("q2", ⟨5, "f"⟩)) "thanks" (Except.ok []) =
      ([], freshSession, []) :=
  C7_short_buffer freshSession [[0, 0]] "hi" (Except.ok ⟨5, "f"⟩)
    (Except.ok ("q2", ⟨5, "f"⟩)) "thanks" (Except.ok []) (by decide)

/-- Byte buffer of sixteen zero bytes: eight all-zero 16-bit samples. -/
def zeroBuf : List Nat := [0, 0, 0, 0, 0, 0, 0, 0, 0, 0, 0, 0, 0, 0, 0, 0]

/-- Byte buffer of four 16-bit little-endian samples alternating between
+32767 (`FF 7F`) and -32768 (`00 80`). -/
def altBuf : List Nat := [255, 127, 0, 128, 255, 127, 0, 128]

/-- C8: the speech-energy estimate is the root mean square of the
buffer's 16-bit little-endian signed samples normalized by 32768 (which
maps them into [-1, 1]): by definition
`calculate_audio_level pcm = Real.sqrt (audioLevelSq pcm)` (first
conjunct), it is exactly 0 on the all-zero buffer, and on the buffer of
alternating +32767 and -32768 samples it lies strictly between 0.9999 and 1,
i.e. it is approximately 1. -/
theorem C8_rms_level :
    (∀ pcm : List Nat,
      calculate_audio_level pcm = Real.sqrt ((audioLevelSq pcm : ℚ) : ℝ)) ∧
    calculate_audio_level zeroBuf = 0 ∧
    (9999 / 10000 : ℝ) < calculate_audio_level altBuf ∧
    calculate_audio_level altBuf < 1 := by
  have hz : audioLevelSq zeroBuf = 0 := by
    norm_num [audioLevelSq, zeroBuf, pcm16Samples, sgn16]
  have ha : audioLevelSq altBuf = 2147418113 / 2147483648 := by
    norm_num [audioLevelSq, altBuf, pcm16Samples, sgn16]
  refine ⟨fun pcm => rfl, ?_, ?_, ?_⟩
  · rw [calculate_audio_level, hz]
    simp [Real.sqrt_zero]
  · rw [calculate_audio_level, ha, Real.lt_sqrt (by norm_num)]
    push_cast
    norm_num
  · rw [calculate_audio_level, ha, Real.sqrt_lt' (by norm_num : (0 : ℝ) < 1)]
    push_cast
    norm_num

/-- C9: on synthesis failure the streamer emits exactly one structured
error event — no audio frames, no end-of-audio marker — and, being a
total function into an event list, never propagates the failure into the
session loop; on success it emits the start-of-audio marker declaring
the MP3 format, then the audio bytes in order (rejoining the chunks
restores the byte stream) in chunks of at most 8192 bytes, then the
end-of-audio marker. -/
theorem C9_synthesis_stream :
    (∀ e : String, send_text_as_audio (Except.error e) =
      [Event.errorEvt ("Error generating audio: " ++ e)]) ∧
    (∀ e : String, Event.audioEnd ∉ send_text_as_audio (Except.error e)) ∧
    (∀ audio : List Nat, send_text_as_audio (Except.ok audio) =
      Event.audioStart "mp3" ::
        ((chunks8192 audio).map Event.sendBytes ++ [Event.audioEnd])) ∧
    (∀ audio : List Nat, (chunks8192 audio).flatten = audio) ∧
    (∀ audio : List Nat,
      (chunks8192 audio).all (fun c => c.length ≤ 8192) = true) := by
  refine ⟨fun e => rfl, ?_, fun audio => rfl, chunks8192_flatten,
    chunks8192_bounded⟩
  intro e
  simp [send_text_as_audio]

/-- C10: the realtime sentinel filter recognizes exactly the empty
transcript, transcripts beginning with `"Transcription failed"`, and the
exact string `"No speech detected in audio"`; the other fault strings
the adapter can return — `"No audio recorded"` (empty file) and
`"Audio file not found: <path>"` — pass the filter, and such a transcript
is then treated as an ordinary candidate answer: the user message is
appended, a conversation entry scored against it is recorded, and the
turn index advances. -/
theorem C10_unrecognized_fault_strings :
    realtimeSkips "" = true ∧
    (∀ t : String, realtimeSkips ("Transcription failed" ++ t) = true) ∧
    realtimeSkips "No speech detected in audio" = true ∧
    realtimeSkips "No audio recorded" = false ∧
    (∀ p : String, realtimeSkips ("Audio file not found: " ++ p) = false) ∧
    (∀ p : String,
      transcribe_with_openai p TranscribeEnv.emptyFile = "No audio recorded") ∧
    (∀ p : String, transcribe_with_openai p TranscribeEnv.fileNotFound =
      "Audio file not found: " ++ p) ∧
    (∀ (s : Session) (fbc : Except String Feedback) (thanks : String)
       (synth : Except String (List Nat)) (nq : String) (fb : Feedback),
      s.qaIndex < s.maxQuestions →
      transcriptStage s "No audio recorded" fbc (Except.ok (nq, fb)) thanks
          synth =
        (Event.transcriptEvt "No audio recorded" ::
          (send_text_as_audio synth ++
            [Event.nextQuestionEvt nq (s.qaIndex + 1)]),
         { s with
           conversations := s.conversations ++
             [ConversationEntry.mk
               (currentQuestion (s.messages ++ [userMessage "No audio recorded"]))
               "No audio recorded" fb.score fb.feedback],
           messages := (s.messages ++ [userMessage "No audio recorded"]) ++
             [assistantMessage nq],
           qaIndex := s.qaIndex + 1 })) := by
  refine ⟨by decide, ?_, by decide, by decide, realtimeSkips_file_not_found,
    fun p => rfl, fun p => rfl, ?_⟩
  · intro t
    simp [realtimeSkips, pyStartsWith_failed_append]
  · intro s fbc thanks synth nq fb hq
    have h1 : ¬s.maxQuestions ≤ s.qaIndex := by omega
    simp [transcriptStage, processTranscriptRealtime, h1,
      show realtimeSkips "No audio recorded" = false from by decide]

/-- C10 witness: an unrecognized fault string processed as an ordinary
answer on the in-progress fixture. -/
theorem C10_witness :
    transcriptStage freshSession "No audio recorded" (Except.ok ⟨5, "f"⟩)
        (Except.ok ("q2", ⟨4, "weak"⟩)) "thanks" (Except.error "tts down") =
      (Event.transcriptEvt "No audio recorded" ::
        (send_text_as_audio (Except.error "tts down") ++
          [Event.nextQuestionEvt "q2" (freshSession.qaIndex + 1)]),
       { freshSession with
         conversations := freshSession.conversations ++
           [ConversationEntry.mk
             (currentQuestion
               (freshSession.messages ++ [userMessage "No audio recorded"]))
             "No audio recorded" (4 : ℚ) "weak"],
         messages := (freshSession.messages ++
           [userMessage "No audio recorded"]) ++ [assistantMessage "q2"],
         qaIndex := freshSession.qaIndex + 1 }) := by
  have h := C10_unrecognized_fault_strings
  exact h.2.2.2.2.2.2.2 freshSession (Except.ok ⟨5, "f"⟩) "thanks"
    (Except.error "tts down") "q2" ⟨4, "weak"⟩ (by decide)

end AIInterview
